import Mathlib

/-!
Verification of the session-state and orchestration core of the RoboBrain 2.0
planning scripts (`scripts/planning_chat.py`, with the conversation-memory
component modelled from its specification where its source is external).

Python strings are embedded as lists of characters (`Str`), Python `None` as
`Option`, Python dictionaries with fixed key sets as structures, and the two
external effects (the inference capability behind `MultiTurnInference.ask`, and
`random.choice`) as explicitly passed parameters: an oracle function and a
drawn index.  File output is modelled as the list of (path, content) pairs the
code would write.
-/

set_option maxHeartbeats 1000000

namespace Robobrain

/-- Characters of a Python string: the working representation of text. -/
abbrev Str := List Char

/-- Opening brace character. -/
def lb : Char := '\x7b'

/-- Closing brace character. -/
def rb : Char := '\x7d'

/-- Newline as a one-character string. -/
def nl : Str := ['\n']

/-- Decidable prefix test on character lists: `isPrefixB pat s` is `true` when
`pat` is a leading segment of `s` (Python `str.startswith`). -/
def isPrefixB : Str → Str → Bool
  | [], _ => true
  | _ :: _, [] => false
  | p :: ps, c :: cs => decide (p = c) && isPrefixB ps cs

/-- Substring test: `strContains pat s` is `true` when `pat` occurs contiguously
inside `s` (Python `pat in s`). -/
def strContains (pat : Str) : Str → Bool
  | [] => isPrefixB pat []
  | c :: cs => isPrefixB pat (c :: cs) || strContains pat cs

/-- Fuel-driven worker for `strReplace`; the fuel dominates the length of the
scanned string so the zero case is unreachable at the wrapper's call. -/
def strReplaceF : Nat → Str → Str → Str → Str
  | 0, s, _, _ => s
  | _ + 1, [], _, _ => []
  | f + 1, c :: cs, pat, rep =>
    if isPrefixB pat (c :: cs) then rep ++ strReplaceF f (cs.drop (pat.length - 1)) pat rep
    else c :: strReplaceF f cs pat rep

/-- Python `s.replace(pat, rep)` for a non-empty `pat`: scan left to right,
replacing each non-overlapping occurrence of `pat` by `rep`.  (Every pattern
used in this development is non-empty; for an empty pattern Python would also
append `rep` at the end, a case no caller exercises.) -/
def strReplace (s pat rep : Str) : Str := strReplaceF s.length s pat rep

/-- Whether a string is free of the opening brace, the character that starts
every template placeholder. -/
def braceFree (s : Str) : Bool := s.all (fun c => decide (c ≠ lb))

/-- Python's notion of whitespace for `str.strip`, restricted to the ASCII
whitespace characters (the only ones arising here). -/
def pyWsChar (c : Char) : Bool :=
  decide (c = ' ') || decide (c = '\t') || decide (c = '\n') || decide (c = '\r') ||
    decide (c = '\x0b') || decide (c = '\x0c')

/-- Python `str.strip()`: drop whitespace from both ends. -/
def pyStrip (s : Str) : Str :=
  ((s.dropWhile pyWsChar).reverse.dropWhile pyWsChar).reverse

/-- Python `s.split('\n')`: split at every newline, keeping empty pieces, with
`[""]` for the empty string. -/
def splitLines (s : Str) : List Str :=
  s.foldr
    (fun c acc =>
      match acc with
      | [] => [[c]]
      | a :: rest => if c = '\n' then [] :: a :: rest else (c :: a) :: rest)
    [[]]

/-- Python `opt or dflt` on an optional string: `None` and the empty string are
falsy and select the default. -/
def pyOrStr (o : Option Str) (dflt : Str) : Str :=
  match o with
  | none => dflt
  | some s => if s = [] then dflt else s

/-- Decimal rendering of a natural number, as used by f-string interpolation. -/
def natToStr (n : Nat) : Str := (Nat.repr n).data

/-- A run of `n` copies of one character, Python's `c * n` separator idiom. -/
def repChar (c : Char) (n : Nat) : Str := List.replicate n c

end Robobrain

namespace Robobrain

/-! ## Template table (`PLANNING_TEMPLATES` of `scripts/planning_chat.py`)

The nine query types and their five paraphrase templates each, verbatim from
the source; the `description` entries are elided because no code under
verification reads them. -/

/-- Templates of query type `planning`. -/
def planningTemplates : List Str :=
  ["The objective is {goal}, what should be the next step to move forward?".data,
   "In pursuit of achieving {goal}, what's the next action to take?".data,
   "To reach the goal of {goal}, which task should be prioritized next?".data,
   "Given the goal of {goal}, what is the most logical next move?".data,
   "With the aim of {goal}, what should you focus on next?".data]

/-- Templates of query type `planning_with_context`. -/
def planningWithContextTemplates : List Str :=
  ["So far, you've completed these steps: {completed_steps}. What's the next move to achieve the goal of {goal}?".data,
   "With the following steps completed: {completed_steps}. What is the next logical step toward {goal}?".data,
   "Considering the goal of {goal}, and having done {completed_steps}, what should you do next?".data,
   "You are working towards {goal}. After completing steps {completed_steps}, what's the next immediate task?".data,
   "Given your progress so far ({completed_steps}), what's the next step toward achieving {goal}?".data]

/-- Templates of query type `planning_remaining`. -/
def planningRemainingTemplates : List Str :=
  ["With {goal} as the goal and the steps {completed_steps} completed, what are the next {num_steps} things to do?".data,
   "To work toward {goal}, what are the next {num_steps} steps after completing {completed_steps}?".data,
   "Here's what's been done so far: {completed_steps}. What are the next {num_steps} tasks to take toward the goal of {goal}?".data,
   "The goal is {goal}. After completing {completed_steps}, what are the next {num_steps} steps you should take?".data,
   "Given the progress so far: {completed_steps}, what's the next set of {num_steps} steps to move closer to {goal}?".data]

/-- Templates of query type `future_prediction`. -/
def futurePredictionTemplates : List Str :=
  ["Based on the current situation, what is expected to happen after {last_task}?".data,
   "What do you think will happen after {last_task} is completed?".data,
   "Considering the current sequence of tasks, what's likely to occur after {last_task}?".data,
   "Given the context, what will most likely happen following {last_task}?".data,
   "After {last_task}, what's the most probable next event?".data]

/-- Templates of query type `success_detection`. -/
def successDetectionTemplates : List Str :=
  ["Was {task} completed successfully?".data,
   "Has {task} been fully carried out?".data,
   "Has {task} reached completion?".data,
   "Was {task} finalized?".data,
   "Can we say that {task} was accomplished?".data]

/-- Templates of query type `affordance_positive`. -/
def affordancePositiveTemplates : List Str :=
  ["Is {task} something that can be accomplished right now?".data,
   "Can {task} be initiated at this moment?".data,
   "Is it feasible to begin {task} immediately?".data,
   "Is now a suitable time to carry out {task}?".data,
   "Can you proceed with {task} given the current conditions?".data]

/-- Templates of query type `affordance_negative`. -/
def affordanceNegativeTemplates : List Str :=
  ["Is {task} what you're working on at the moment?".data,
   "Are you currently engaged in {task}?".data,
   "Is this {task} you're focused on right now?".data,
   "Is this {task} you're handling at present?".data,
   "Are you doing {task} at this very moment?".data]

/-- Templates of query type `generative_affordance`. -/
def generativeAffordanceTemplates : List Str :=
  ["What can you do at this moment?".data,
   "Which task is possible to start right now?".data,
   "Given the current situation, what action can be taken?".data,
   "What's the next available action?".data,
   "Considering the circumstances, what task can you begin now?".data]

/-- Templates of query type `past_description`. -/
def pastDescriptionTemplates : List Str :=
  ["What was the last task completed?".data,
   "What just occurred?".data,
   "What was the most recent action taken?".data,
   "What task did you just finish?".data,
   "What happened immediately before this?".data]

/-- Lookup of `PLANNING_TEMPLATES[query_type]["templates"]`: `none` models a
key absent from the dictionary. -/
def lookupTemplates (qt : Str) : Option (List Str) :=
  if qt = "planning".data then some planningTemplates
  else if qt = "planning_with_context".data then some planningWithContextTemplates
  else if qt = "planning_remaining".data then some planningRemainingTemplates
  else if qt = "future_prediction".data then some futurePredictionTemplates
  else if qt = "success_detection".data then some successDetectionTemplates
  else if qt = "affordance_positive".data then some affordancePositiveTemplates
  else if qt = "affordance_negative".data then some affordanceNegativeTemplates
  else if qt = "generative_affordance".data then some generativeAffordanceTemplates
  else if qt = "past_description".data then some pastDescriptionTemplates
  else none

/-! ## Planning session (`PlanningSession` of `scripts/planning_chat.py`) -/

/-- One entry of `task_history`: the dictionary appended by
`add_completed_task`. -/
structure TaskRecord where
  task : Str
  status : Str
  timestamp : Str

/-- State of a `PlanningSession` (the `run_dir` attribute lives on the
executor model below; console printing is an elided effect). -/
structure PlanningSession where
  goal : Option Str
  completed_tasks : List Str
  current_task : Option Str
  task_history : List TaskRecord

/-- The freshly constructed session: `PlanningSession.__init__`. -/
def initSession : PlanningSession :=
  { goal := none, completed_tasks := [], current_task := none, task_history := [] }

/-- `PlanningSession.set_goal`. -/
def PlanningSession.set_goal (s : PlanningSession) (g : Str) : PlanningSession :=
  { s with goal := some g, completed_tasks := [], current_task := none }

/-- `PlanningSession.add_completed_task`; `now` stands for the
`datetime.now().isoformat()` timestamp, an external input. -/
def PlanningSession.add_completed_task (s : PlanningSession) (t now : Str) : PlanningSession :=
  { s with
    completed_tasks := s.completed_tasks ++ [t]
    task_history := s.task_history ++ [{ task := t, status := "completed".data, timestamp := now }] }

/-- `PlanningSession.set_current_task`. -/
def PlanningSession.set_current_task (s : PlanningSession) (t : Str) : PlanningSession :=
  { s with current_task := some t }

/-- `PlanningSession.reset`. -/
def PlanningSession.reset (_ : PlanningSession) : PlanningSession := initSession

/-- `PlanningSession.get_completed_steps_str`, 1-indexed enumeration worker. -/
def enumTasks : Nat → List Str → List Str
  | _, [] => []
  | i, t :: r => (natToStr (i + 1) ++ "-".data ++ t) :: enumTasks (i + 1) r

/-- `PlanningSession.get_completed_steps_str`. -/
def PlanningSession.get_completed_steps_str (s : PlanningSession) : Str :=
  if s.completed_tasks = [] then "none".data
  else List.intercalate ", ".data (enumTasks 0 s.completed_tasks)

/-- `PlanningSession.get_last_task`. -/
def PlanningSession.get_last_task (s : PlanningSession) : Str :=
  match s.completed_tasks.getLast? with
  | some t => t
  | none => "starting the task".data

/-! ## Prompt generation (`PlanningExecutor.generate_prompt`) -/

/-- Keyword arguments reaching `generate_prompt`; `none` models an absent
keyword. -/
structure Kwargs where
  goal : Option Str := none
  completed_steps : Option Str := none
  last_task : Option Str := none
  task : Option Str := none
  num_steps : Option Str := none
  custom_prompt : Option Str := none

/-- The five template variables of `generate_prompt`. -/
inductive VarName
  | goal
  | completed_steps
  | last_task
  | task
  | num_steps
deriving DecidableEq

/-- The placeholder string of a template variable. -/
def phStr : VarName → Str
  | .goal => "{goal}".data
  | .completed_steps => "{completed_steps}".data
  | .last_task => "{last_task}".data
  | .task => "{task}".data
  | .num_steps => "{num_steps}".data

/-- The resolved value of each template variable: the `replacements`
dictionary of `generate_prompt`, in its insertion order. -/
structure Repl where
  goal : Str
  completed_steps : Str
  last_task : Str
  task : Str
  num_steps : Str

/-- Resolution of the `replacements` dictionary: each `kwargs.get(key, fb)`
falls back to session state (through Python truthiness for `goal` and
`current_task`) and then to a fixed default. -/
def resolveRepl (kw : Kwargs) (s : PlanningSession) : Repl :=
  { goal := kw.goal.getD (pyOrStr s.goal "complete the task".data)
    completed_steps := kw.completed_steps.getD s.get_completed_steps_str
    last_task := kw.last_task.getD s.get_last_task
    task := kw.task.getD (pyOrStr s.current_task "the current task".data)
    num_steps := kw.num_steps.getD "5".data }

/-- The substitution loop of `generate_prompt`: one `str.replace` per
variable, in the dictionary's insertion order. -/
def applyAllRepls (t : Str) (r : Repl) : Str :=
  strReplace
    (strReplace
      (strReplace
        (strReplace
          (strReplace t (phStr .goal) r.goal)
          (phStr .completed_steps) r.completed_steps)
        (phStr .last_task) r.last_task)
      (phStr .task) r.task)
    (phStr .num_steps) r.num_steps

/-- `PlanningExecutor.generate_prompt`.  `random.choice(templates)` is
modelled by the injected draw: the chosen template is the one at index
`draw % templates.length`, so fixing the pseudo-random source fixes `draw`. -/
def generate_prompt (qt : Str) (kw : Kwargs) (sess : PlanningSession) (draw : Nat) : Str :=
  match lookupTemplates qt with
  | none => kw.custom_prompt.getD "Describe what you see.".data
  | some ts => applyAllRepls (ts.getD (draw % ts.length) []) (resolveRepl kw sess)

/-! ## Pipeline (`PlanningExecutor.ask_planning`, `run_planning_pipeline`,
`_extract_task_from_answer`, `_save_pipeline_results`) -/

/-- Outcome of one `MultiTurnInference.ask` call.  Modelled from the spec:
`conversation_memory.py` is not part of the sources; per the specification the
orchestrator returns either an answer/thinking record or an error record and
never raises, and `ask_planning` reads the `answer` and `thinking` keys with
empty-string defaults (so an error outcome yields empty strings). -/
inductive AskResult
  | ok (answer thinking : Str)
  | err (msg : Str)

/-- The `answer` field read by `result.get("answer", "")`. -/
def askAnswer : AskResult → Str
  | .ok a _ => a
  | .err _ => []

/-- The `thinking` field read by `result.get("thinking", "")`. -/
def askThinking : AskResult → Str
  | .ok _ t => t
  | .err _ => []

/-- One step record of the pipeline: the dictionary returned by
`ask_planning` (its keys, exactly). -/
structure StepRecord where
  query_type : Str
  prompt : Str
  answer : Str
  thinking : Str
  success : Bool

/-- A step record with empty fields, used as the default of list lookups in
statements. -/
def dfltStep : StepRecord :=
  { query_type := [], prompt := [], answer := [], thinking := [], success := false }

/-- `PlanningExecutor.ask_planning`: render the prompt, submit it to the
inference orchestrator (`ask1`), and package the step record; the `success`
key is the literal `True` of the source. -/
def ask_planning (sess : PlanningSession) (qt : Str) (kw : Kwargs) (draw : Nat)
    (ask1 : Str → AskResult) : StepRecord :=
  let prompt := generate_prompt qt kw sess draw
  { query_type := qt
    prompt := prompt
    answer := askAnswer (ask1 prompt)
    thinking := askThinking (ask1 prompt)
    success := true }

/-- The ordered prefixes stripped by `_extract_task_from_answer`. -/
def taskPrefixes : List Str :=
  ["The next step is to ".data, "You should ".data, "First, ".data, "1. ".data, "- ".data]

/-- The prefix-stripping loop of `_extract_task_from_answer`: each prefix, in
order, is removed when the current line starts with it. -/
def stripTaskPrefixes (l : Str) : Str :=
  taskPrefixes.foldl (fun acc p => if isPrefixB p acc then acc.drop p.length else acc) l

/-- The line scan of `_extract_task_from_answer`. -/
def extractGo : List Str → Option Str
  | [] => none
  | l :: rest =>
    if pyStrip l ≠ [] ∧ 10 < (pyStrip l).length then some ((stripTaskPrefixes (pyStrip l)).take 100)
    else extractGo rest

/-- `PlanningExecutor._extract_task_from_answer`. -/
def extract_task_from_answer (answer : Str) : Option Str :=
  extractGo (splitLines answer)

/-- Python `first_task or dflt` on the optional extraction result (`None` and
the empty string are falsy). -/
def pyOrOpt (o : Option Str) (dflt : Str) : Str :=
  match o with
  | none => dflt
  | some s => if s = [] then dflt else s

/-- The pipeline's result record (`results` of `run_planning_pipeline`). -/
structure PipelineResults where
  goal : Str
  steps : List StepRecord
  success : Bool
  timestamp : Str

/-- Content of a persisted file: the structured JSON record (its serialization
by `json.dump` is an external library call, so the structured content itself
is carried), or rendered plain text. -/
inductive FileCont
  | jsonFile (r : PipelineResults)
  | textFile (s : Str)

/-- Sixty equals signs. -/
def eq60 : Str := repChar '=' 60

/-- Forty dashes. -/
def dash40 : Str := repChar '-' 40

/-- One step section of `pipeline_summary.txt`, for 1-indexed step `i`. -/
def stepBlock (i : Nat) (st : StepRecord) : Str :=
  dash40 ++ nl ++ "Step ".data ++ natToStr i ++ ": ".data ++ st.query_type ++ nl ++
    dash40 ++ nl ++ "Prompt: ".data ++ st.prompt ++ nl ++ nl ++
    "Answer:".data ++ nl ++ st.answer ++ nl ++ nl ++
    (if st.thinking = [] then []
     else "Thinking:".data ++ nl ++ st.thinking ++ nl ++ nl)

/-- The step sections of `pipeline_summary.txt`, enumerated from `i`. -/
def stepBlocks : Nat → List StepRecord → Str
  | _, [] => []
  | i, st :: r => stepBlock i st ++ stepBlocks (i + 1) r

/-- The full text of `pipeline_summary.txt` as written by
`_save_pipeline_results`. -/
def renderSummary (r : PipelineResults) : Str :=
  eq60 ++ nl ++ "PLANNING PIPELINE SUMMARY".data ++ nl ++ eq60 ++ nl ++ nl ++
    "Goal: ".data ++ r.goal ++ nl ++ "Timestamp: ".data ++ r.timestamp ++ nl ++ nl ++
    stepBlocks 1 r.steps

/-- `PlanningExecutor._save_pipeline_results`: with no run directory (no prior
`set_image`) it returns without writing; otherwise it writes the structured
record and the parallel text summary into the run directory. -/
def savePipelineResults (runDir : Option Str) (r : PipelineResults) : List (Str × FileCont) :=
  match runDir with
  | none => []
  | some d =>
    [(d ++ "/pipeline_results.json".data, .jsonFile r),
     (d ++ "/pipeline_summary.txt".data, .textFile (renderSummary r))]

/-- The state produced by one pipeline invocation: the result record, the
files written, and the session as mutated. -/
structure PipelineOutcome where
  results : PipelineResults
  writes : List (Str × FileCont)
  sess : PlanningSession

/-- `PlanningExecutor.run_planning_pipeline`.  `askFn i` is the inference
orchestrator as seen by the `i`-th `chat.ask` call, `draws i` the random draw
of the `i`-th template choice, `nowTs` the `datetime.now().isoformat()`
timestamp, and `runDir` the `run_dir` attribute established by `set_image`
(or `none` when no image was ever set). -/
def run_planning_pipeline (sess : PlanningSession) (runDir : Option Str) (goal : Str)
    (askFn : Nat → Str → AskResult) (draws : Nat → Nat) (nowTs : Str) : PipelineOutcome :=
  let s1 := sess.set_goal goal
  let step1 := ask_planning s1 "generative_affordance".data {} (draws 0) (askFn 0)
  let step2 := ask_planning s1 "planning".data { goal := some goal } (draws 1) (askFn 1)
  let first_task := extract_task_from_answer step2.answer
  let s2 :=
    match first_task with
    | some t => if t = [] then s1 else s1.set_current_task t
    | none => s1
  let step3 := ask_planning s2 "affordance_positive".data
    { task := some (pyOrOpt first_task "the first step".data) } (draws 2) (askFn 2)
  let step4 := ask_planning s2 "planning_remaining".data
    { goal := some goal, num_steps := some "5".data } (draws 3) (askFn 3)
  let results : PipelineResults :=
    { goal := goal, steps := [step1, step2, step3, step4], success := true, timestamp := nowTs }
  { results := results, writes := savePipelineResults runDir results, sess := s2 }

/-! ## Conversation memory, modelled from the spec

`conversation_memory.py` is not among the sources; only its tests and callers
are.  The model below follows the specification: a bounded ordered turn log
with FIFO eviction on append. -/

/-- Modelled from the spec: one `Turn` of `conversation_memory.py` (role,
content, optional image reference, optional task tag, timestamp). -/
structure Turn where
  role : Str
  content : Str
  image_ref : Option Str
  task_tag : Option Str
  timestamp : Str

/-- Modelled from the spec: the `ConversationMemory` aggregate of
`conversation_memory.py` — an ordered turn sequence bounded by `max_turns`,
plus the active image. -/
structure ConversationMemory where
  turns : List Turn
  current_image : Option Str
  max_turns : Nat

/-- Modelled from the spec: a freshly constructed `ConversationMemory` with
the given bound. -/
def emptyMemory (maxTurns : Nat) : ConversationMemory :=
  { turns := [], current_image := none, max_turns := maxTurns }

/-- Modelled from the spec: append one turn, then evict from the front until
`len(turns) ≤ max_turns` holds. -/
def ConversationMemory.addTurn (m : ConversationMemory) (t : Turn) : ConversationMemory :=
  let ts := m.turns ++ [t]
  { m with turns := ts.drop (ts.length - m.max_turns) }

/-- One mutation of the memory by the two append operations of
`conversation_memory.py`. -/
inductive MemOp
  | user (content : Str) (image_ref : Option Str) (task_tag : Option Str) (timestamp : Str)
  | assistant (content : Str) (timestamp : Str)

/-- The turn a memory operation appends. -/
def MemOp.turn : MemOp → Turn
  | .user c i tg ts => { role := "user".data, content := c, image_ref := i, task_tag := tg, timestamp := ts }
  | .assistant c ts => { role := "assistant".data, content := c, image_ref := none, task_tag := none, timestamp := ts }

/-- Modelled from the spec: `add_user_turn` also records the active image when
one is passed; `add_assistant_turn` only appends. -/
def ConversationMemory.applyOp (m : ConversationMemory) (op : MemOp) : ConversationMemory :=
  match op with
  | .user _ i _ _ =>
    let m' := m.addTurn op.turn
    { m' with current_image := match i with | some img => some img | none => m.current_image }
  | .assistant _ _ => m.addTurn op.turn

/-! ## Lemmas on the string primitives -/

/-! ## Further definitions used by the proofs: segmented templates,
spec-side reference definitions, and concrete examples -/

/-- The placeholder string of a variable, without its opening brace. -/
def phTail : VarName → Str
  | .goal => "goal\x7d".data
  | .completed_steps => "completed_steps\x7d".data
  | .last_task => "last_task\x7d".data
  | .task => "task\x7d".data
  | .num_steps => "num_steps\x7d".data

/-- One segment of a template: a literal chunk or a placeholder. -/
inductive Seg
  | lit (s : Str)
  | ph (n : VarName)

/-- The template a segment list denotes. -/
def flattenSegs : List Seg → Str
  | [] => []
  | .lit s :: r => s ++ flattenSegs r
  | .ph n :: r => phStr n ++ flattenSegs r

/-- Substitution of one variable: its placeholder segments become the literal
value. -/
def substSeg (n : VarName) (v : Str) : List Seg → List Seg :=
  List.map fun sg =>
    match sg with
    | .ph m => if m = n then .lit v else .ph m
    | .lit s => .lit s

/-- Well-formedness of a segment list: every literal chunk is brace-free. -/
def segsOK (segs : List Seg) : Bool :=
  segs.all (fun sg => match sg with | .lit s => braceFree s | .ph _ => true)

/-- Absence of placeholder segments. -/
def noPh (segs : List Seg) : Bool :=
  segs.all (fun sg => match sg with | .lit _ => true | .ph _ => false)

/-- The full substitution pass of `generate_prompt`, on segments, in the
replacement order of the source. -/
def substAll (r : Repl) (segs : List Seg) : List Seg :=
  substSeg .num_steps r.num_steps
    (substSeg .task r.task
      (substSeg .last_task r.last_task
        (substSeg .completed_steps r.completed_steps
          (substSeg .goal r.goal segs))))

/-- Recognition of a placeholder name. -/
def nameToVar (s : Str) : Option VarName :=
  if s = "goal".data then some .goal
  else if s = "completed_steps".data then some .completed_steps
  else if s = "last_task".data then some .last_task
  else if s = "task".data then some .task
  else if s = "num_steps".data then some .num_steps
  else none

/-- Fuel-driven splitting of a template at its braces.  Malformed input falls
back to a single literal chunk, which the `templateGood` checker then
rejects when that chunk contains a brace. -/
def segmentGo : Nat → Str → List Seg
  | 0, s => [.lit s]
  | fuel + 1, s =>
    let a := s.takeWhile (fun c => decide (c ≠ lb))
    let b := s.dropWhile (fun c => decide (c ≠ lb))
    match b with
    | [] => [.lit a]
    | _ :: rest =>
      let nm := rest.takeWhile (fun c => decide (c ≠ rb))
      let rest2 := rest.dropWhile (fun c => decide (c ≠ rb))
      match rest2, nameToVar nm with
      | _ :: rest3, some n => .lit a :: .ph n :: segmentGo fuel rest3
      | _, _ => [.lit s]

/-- A segmentation of a template string. -/
def segmentTemplate (s : Str) : List Seg := segmentGo s.length s

/-- Decidable well-formedness of a concrete template: its computed
segmentation flattens back to it and all literal chunks are brace-free. -/
def templateGood (t : Str) : Bool :=
  decide (flattenSegs (segmentTemplate t) = t) && segsOK (segmentTemplate t)

/-- One mutation of a `PlanningSession`. -/
inductive SessionOp
  | setGoal (g : Str)
  | addCompleted (t now : Str)
  | setCurrent (t : Str)
  | reset

/-- Application of one session operation. -/
def applySessionOp (s : PlanningSession) : SessionOp → PlanningSession
  | .setGoal g => s.set_goal g
  | .addCompleted t now => s.add_completed_task t now
  | .setCurrent t => s.set_current_task t
  | .reset => s.reset

/-- The session invariant of the spec: no more completed tasks than history
records. -/
def sessionInv (s : PlanningSession) : Prop :=
  s.completed_tasks.length ≤ s.task_history.length

/-- A concrete sequence of four appends, used by the C6 witness. -/
def memOpsExample : List MemOp :=
  [.user ("q0".data) none none [], .assistant ("a0".data) [],
   .user ("q1".data) none none [], .assistant ("a1".data) []]

/-- Task extraction written from the claim's words, parametrized by the
line preparation step: split into lines, take the first prepared line that is
non-empty and longer than 10 characters, strip each listed leading prefix in
order, truncate to 100 characters; `none` when no line qualifies.  The claim's
literal reading uses `prep = fun l => l` (raw lines); the amended reading uses
`prep = pyStrip` (whitespace-stripped lines, as the code does). -/
def extractSpec (prep : Str → Str) (s : Str) : Option Str :=
  ((splitLines s).find? (fun l => decide (prep l ≠ [] ∧ 10 < (prep l).length))).map
    (fun l => (stripTaskPrefixes (prep l)).take 100)

/-- The claim's description of the non-empty `completed_steps` rendering: a
comma-separated 1-indexed enumeration `1-task, 2-task, ...`. -/
def specEnumSteps (ts : List Str) : Str :=
  List.intercalate (", ".data)
    (((List.range ts.length).zip ts).map (fun p => natToStr (p.1 + 1) ++ "-".data ++ p.2))

theorem isPrefixB_append_self (pat b : Str) : isPrefixB pat (pat ++ b) = true := by
  induction pat with
  | nil => rfl
  | cons p ps ih => simp [isPrefixB, ih]

theorem isPrefixB_neg_head {p c : Char} (ps cs : Str) (h : p ≠ c) :
    isPrefixB (p :: ps) (c :: cs) = false := by
  simp [isPrefixB, h]

theorem isPrefixB_iff_prefix {pat s : Str} : isPrefixB pat s = true ↔ pat <+: s := by
  induction pat generalizing s with
  | nil => simp [isPrefixB]
  | cons p ps ih =>
    cases s with
    | nil => simp [isPrefixB]
    | cons c cs =>
      simp only [isPrefixB, Bool.and_eq_true, decide_eq_true_eq, ih, List.cons_prefix_cons]

theorem strReplaceF_fuel : ∀ (f g : Nat) (s pat rep : Str), s.length ≤ f → s.length ≤ g →
    strReplaceF f s pat rep = strReplaceF g s pat rep := by
  intro f
  induction f with
  | zero =>
    intro g s pat rep hf _
    have : s = [] := by
      cases s with
      | nil => rfl
      | cons c cs => simp at hf
    subst this
    cases g <;> rfl
  | succ f ih =>
    intro g s pat rep hf hg
    cases s with
    | nil => cases g <;> rfl
    | cons c cs =>
      cases g with
      | zero => simp at hg
      | succ g =>
        simp only [strReplaceF]
        by_cases h : isPrefixB pat (c :: cs) = true
        · simp only [h, if_true]
          have hlen : (cs.drop (pat.length - 1)).length ≤ f := by
            simp only [List.length_drop]
            simp only [List.length_cons] at hf
            omega
          have hlen' : (cs.drop (pat.length - 1)).length ≤ g := by
            simp only [List.length_drop]
            simp only [List.length_cons] at hg
            omega
          rw [ih _ _ _ _ hlen hlen']
        · simp only [Bool.not_eq_true] at h
          simp only [h, Bool.false_eq_true, if_false]
          have hlen : cs.length ≤ f := by simp only [List.length_cons] at hf; omega
          have hlen' : cs.length ≤ g := by simp only [List.length_cons] at hg; omega
          rw [ih _ _ _ _ hlen hlen']

theorem strReplace_nil (pat rep : Str) : strReplace [] pat rep = [] := rfl

theorem strReplace_cons_pos {pat : Str} {c : Char} {cs : Str}
    (h : isPrefixB pat (c :: cs) = true) (rep : Str) :
    strReplace (c :: cs) pat rep = rep ++ strReplace (cs.drop (pat.length - 1)) pat rep := by
  show strReplaceF (cs.length + 1) (c :: cs) pat rep = _
  simp only [strReplaceF, h, if_true]
  rw [strReplaceF_fuel cs.length (cs.drop (pat.length - 1)).length (cs.drop (pat.length - 1))]
  · rfl
  · simp only [List.length_drop]; omega
  · exact Nat.le_refl _

theorem strReplace_cons_neg {pat : Str} {c : Char} {cs : Str}
    (h : isPrefixB pat (c :: cs) = false) (rep : Str) :
    strReplace (c :: cs) pat rep = c :: strReplace cs pat rep := by
  show strReplaceF (cs.length + 1) (c :: cs) pat rep = _
  simp only [strReplaceF, h, Bool.false_eq_true, if_false]
  rfl

theorem strReplace_prefix_self (p : Char) (ps b rep : Str) :
    strReplace ((p :: ps) ++ b) (p :: ps) rep = rep ++ strReplace b (p :: ps) rep := by
  rw [List.cons_append, strReplace_cons_pos (by rw [← List.cons_append]; exact isPrefixB_append_self _ _)]
  congr 2
  simp only [List.length_cons, Nat.add_sub_cancel]
  exact List.drop_left ps b

theorem braceFree_mem {s : Str} (h : braceFree s = true) {c : Char} (hc : c ∈ s) : c ≠ lb := by
  simp only [braceFree, List.all_eq_true, decide_eq_true_eq] at h
  exact h c hc

theorem braceFree_cons {c : Char} {cs : Str} :
    braceFree (c :: cs) = true ↔ c ≠ lb ∧ braceFree cs = true := by
  simp [braceFree]

theorem braceFree_append {a b : Str} :
    braceFree (a ++ b) = true ↔ braceFree a = true ∧ braceFree b = true := by
  simp [braceFree]

theorem strReplace_append_bf {a : Str} (ha : braceFree a = true) (pt b rep : Str) :
    strReplace (a ++ b) (lb :: pt) rep = a ++ strReplace b (lb :: pt) rep := by
  induction a with
  | nil => simp
  | cons c cs ih =>
    obtain ⟨hc, hcs⟩ := braceFree_cons.mp ha
    rw [List.cons_append, strReplace_cons_neg (isPrefixB_neg_head _ _ (Ne.symm hc)),
      ih hcs, List.cons_append]

theorem strReplace_no_occur {s pat : Str} (h : strContains pat s = false) (rep : Str) :
    strReplace s pat rep = s := by
  induction s with
  | nil => rfl
  | cons c cs ih =>
    simp only [strContains, Bool.or_eq_false_iff] at h
    rw [strReplace_cons_neg h.1, ih h.2]

theorem mem_of_isPrefixB {pat s : Str} (h : isPrefixB pat s = true) {x : Char} (hx : x ∈ pat) :
    x ∈ s := by
  have := isPrefixB_iff_prefix.mp h
  exact this.subset hx

theorem mem_of_strContains {pat s : Str} (h : strContains pat s = true) {x : Char} (hx : x ∈ pat) :
    x ∈ s := by
  induction s with
  | nil =>
    simp only [strContains] at h
    have := mem_of_isPrefixB h hx
    simp at this
  | cons c cs ih =>
    simp only [strContains, Bool.or_eq_true] at h
    rcases h with h | h
    · exact mem_of_isPrefixB h hx
    · exact List.mem_cons_of_mem _ (ih h)

theorem strContains_eq_false_of_braceFree {s : Str} (h : braceFree s = true) (pt : Str) :
    strContains (lb :: pt) s = false := by
  by_contra hc
  rw [Bool.not_eq_false] at hc
  exact braceFree_mem h (mem_of_strContains hc (List.mem_cons_self _ _)) rfl

/-! ## Segmented view of templates

A template is decomposed into brace-free literal chunks and placeholders; the
sequential `str.replace` loop of `generate_prompt` then acts segment by
segment, which is the key to reasoning about it with symbolic variable
values. -/

theorem phStr_eq (n : VarName) : phStr n = lb :: phTail n := by
  cases n <;> rfl

theorem braceFree_phTail (n : VarName) : braceFree (phTail n) = true := by
  cases n <;> decide

theorem isPrefixB_ph_ph_false {n m : VarName} (hnm : n ≠ m) (b : Str) :
    isPrefixB (phStr n) (phStr m ++ b) = false := by
  cases n <;> cases m <;> first
    | exact absurd rfl hnm
    | rfl

theorem strReplace_skip_ph {n m : VarName} (hnm : n ≠ m) (b rep : Str) :
    strReplace (phStr m ++ b) (phStr n) rep = phStr m ++ strReplace b (phStr n) rep := by
  have hpre := isPrefixB_ph_ph_false hnm b
  rw [phStr_eq m, List.cons_append] at hpre ⊢
  rw [phStr_eq n] at hpre ⊢
  rw [strReplace_cons_neg hpre, strReplace_append_bf (braceFree_phTail m), List.cons_append]

theorem strReplace_flatten (n : VarName) (v : Str) :
    ∀ segs : List Seg, segsOK segs = true →
      strReplace (flattenSegs segs) (phStr n) v = flattenSegs (substSeg n v segs) := by
  intro segs
  induction segs with
  | nil => intro _; rfl
  | cons sg r ih =>
    intro hOK
    simp only [segsOK, List.all_cons, Bool.and_eq_true] at hOK
    have hr := ih hOK.2
    cases sg with
    | lit s =>
      have hs : braceFree s = true := hOK.1
      simp only [flattenSegs, substSeg, List.map_cons]
      rw [phStr_eq n, strReplace_append_bf hs, ← phStr_eq n, hr]
      rfl
    | ph m =>
      by_cases hm : m = n
      · subst hm
        simp only [flattenSegs, substSeg, List.map_cons, if_pos rfl]
        rw [phStr_eq m, List.cons_append, ← List.cons_append, strReplace_prefix_self,
          ← phStr_eq m, hr]
        rfl
      · simp only [flattenSegs, substSeg, List.map_cons, if_neg hm]
        rw [strReplace_skip_ph (fun h => hm h.symm), hr]
        rfl

theorem segsOK_substSeg {segs : List Seg} (h : segsOK segs = true) {v : Str}
    (hv : braceFree v = true) (n : VarName) : segsOK (substSeg n v segs) = true := by
  simp only [segsOK, substSeg, List.all_map, List.all_eq_true] at h ⊢
  intro sg hsg
  have := h sg hsg
  cases sg with
  | lit s => exact this
  | ph m =>
    by_cases hm : m = n
    · simp [hm, hv]
    · simp [hm]

theorem applyAll_flatten {segs : List Seg} (hOK : segsOK segs = true) {r : Repl}
    (h1 : braceFree r.goal = true) (h2 : braceFree r.completed_steps = true)
    (h3 : braceFree r.last_task = true) (h4 : braceFree r.task = true)
    (_h5 : braceFree r.num_steps = true) :
    applyAllRepls (flattenSegs segs) r = flattenSegs (substAll r segs) := by
  unfold applyAllRepls substAll
  rw [strReplace_flatten _ _ _ hOK,
    strReplace_flatten _ _ _ (segsOK_substSeg hOK h1 _),
    strReplace_flatten _ _ _ (segsOK_substSeg (segsOK_substSeg hOK h1 _) h2 _),
    strReplace_flatten _ _ _ (segsOK_substSeg (segsOK_substSeg (segsOK_substSeg hOK h1 _) h2 _) h3 _),
    strReplace_flatten _ _ _ (segsOK_substSeg (segsOK_substSeg (segsOK_substSeg (segsOK_substSeg hOK h1 _) h2 _) h3 _) h4 _)]

theorem noPh_substAll (r : Repl) (segs : List Seg) : noPh (substAll r segs) = true := by
  simp only [substAll, substSeg, noPh, List.all_map, List.all_eq_true]
  intro sg _
  cases sg with
  | lit s => rfl
  | ph m => cases m <;> rfl

theorem segsOK_substAll {segs : List Seg} (hOK : segsOK segs = true) {r : Repl}
    (h1 : braceFree r.goal = true) (h2 : braceFree r.completed_steps = true)
    (h3 : braceFree r.last_task = true) (h4 : braceFree r.task = true)
    (h5 : braceFree r.num_steps = true) : segsOK (substAll r segs) = true :=
  segsOK_substSeg (segsOK_substSeg (segsOK_substSeg (segsOK_substSeg (segsOK_substSeg hOK h1 _) h2 _) h3 _) h4 _) h5 _

theorem braceFree_flattenSegs : ∀ {segs : List Seg}, segsOK segs = true → noPh segs = true →
    braceFree (flattenSegs segs) = true := by
  intro segs
  induction segs with
  | nil => intro _ _; rfl
  | cons sg r ih =>
    intro hOK hnp
    simp only [segsOK, noPh, List.all_cons, Bool.and_eq_true] at hOK hnp
    cases sg with
    | lit s =>
      simp only [flattenSegs]
      exact braceFree_append.mpr ⟨hOK.1, ih hOK.2 hnp.2⟩
    | ph m => exact absurd hnp.1 (by simp)

/-! ## A checker producing segmentations of the concrete templates -/

theorem applyAll_no_placeholder {t : Str} (ht : templateGood t = true) {r : Repl}
    (h1 : braceFree r.goal = true) (h2 : braceFree r.completed_steps = true)
    (h3 : braceFree r.last_task = true) (h4 : braceFree r.task = true)
    (h5 : braceFree r.num_steps = true) (n : VarName) :
    strContains (phStr n) (applyAllRepls t r) = false := by
  simp only [templateGood, Bool.and_eq_true, decide_eq_true_eq] at ht
  obtain ⟨hflat, hOK⟩ := ht
  rw [← hflat, applyAll_flatten hOK h1 h2 h3 h4 h5, phStr_eq]
  exact strContains_eq_false_of_braceFree
    (braceFree_flattenSegs (segsOK_substAll hOK h1 h2 h3 h4 h5) (noPh_substAll r _)) _

theorem getD_mem_of_lt {l : List Str} {i : Nat} (h : i < l.length) (d : Str) :
    l.getD i d ∈ l := by
  rw [List.getD_eq_getElem l d h]
  exact List.getElem_mem h

theorem gen_no_ph {ts : List Str} (hne : ts ≠ []) (hall : ∀ t ∈ ts, templateGood t = true)
    {r : Repl} (h1 : braceFree r.goal = true) (h2 : braceFree r.completed_steps = true)
    (h3 : braceFree r.last_task = true) (h4 : braceFree r.task = true)
    (h5 : braceFree r.num_steps = true) (draw : Nat) (n : VarName) :
    strContains (phStr n) (applyAllRepls (ts.getD (draw % ts.length) []) r) = false := by
  have hlen : 0 < ts.length := List.length_pos.mpr hne
  have hmem := getD_mem_of_lt (Nat.mod_lt draw hlen) ([] : Str)
  exact applyAll_no_placeholder (hall _ hmem) h1 h2 h3 h4 h5 n

/-! ## Session operations as a closed alphabet (for invariant claims) -/

/-! ## Claims C7 and C8: session invariant and the `set_goal` frame -/

/-- C7: every `PlanningSession` operation (`set_goal`, `add_completed_task`,
`set_current_task`, `reset`) preserves the invariant
`completed_tasks.length ≤ task_history.length`, which also holds in the empty
initial state. -/
theorem c7_session_invariant :
    sessionInv initSession ∧
      ∀ (s : PlanningSession) (op : SessionOp), sessionInv s → sessionInv (applySessionOp s op) := by
  refine ⟨Nat.le_refl 0, ?_⟩
  intro s op h
  cases op with
  | setGoal g =>
    simp only [applySessionOp, PlanningSession.set_goal, sessionInv, List.length_nil]
    exact Nat.zero_le _
  | addCompleted t now =>
    simp only [sessionInv] at h
    simp only [applySessionOp, PlanningSession.add_completed_task, sessionInv,
      List.length_append, List.length_cons, List.length_nil]
    omega
  | setCurrent t => exact h
  | reset => exact Nat.le_refl 0

/-- C7 witness: the invariant transfer applied at a concrete state and
operation. -/
theorem c7_session_invariant_witness :
    sessionInv initSession ∧ sessionInv (applySessionOp initSession (SessionOp.setGoal ("stack the blocks".data))) :=
  ⟨c7_session_invariant.1, c7_session_invariant.2 initSession _ c7_session_invariant.1⟩

/-- C8: `set_goal` sets the goal, empties `completed_tasks`, unsets
`current_task`, and leaves `task_history` untouched (so its length never
shrinks). -/
theorem c8_set_goal_frame (s : PlanningSession) (g : Str) :
    (s.set_goal g).goal = some g ∧
      (s.set_goal g).completed_tasks = [] ∧
      (s.set_goal g).current_task = none ∧
      (s.set_goal g).task_history = s.task_history ∧
      s.task_history.length ≤ (s.set_goal g).task_history.length :=
  ⟨rfl, rfl, rfl, rfl, Nat.le_refl _⟩

/-! ## Claim C6: bounded FIFO conversation memory (spec-modelled) -/

theorem trim_absorb {α : Type} (mt : Nat) (l r : List α) :
    (l.drop (l.length - mt) ++ r).drop ((l.drop (l.length - mt) ++ r).length - mt)
      = (l ++ r).drop ((l ++ r).length - mt) := by
  have ha : l.length - mt ≤ l.length := Nat.sub_le _ _
  have h2 : (l ++ r).drop (l.length - mt) = l.drop (l.length - mt) ++ r := by
    rw [List.drop_append_eq_append_drop, Nat.sub_eq_zero_of_le ha, List.drop_zero]
  calc (l.drop (l.length - mt) ++ r).drop ((l.drop (l.length - mt) ++ r).length - mt)
      = (l.drop (l.length - mt) ++ r).drop ((l ++ r).length - mt - (l.length - mt)) := by
        congr 1
        simp only [List.length_append, List.length_drop]
        omega
    _ = ((l ++ r).drop (l.length - mt)).drop ((l ++ r).length - mt - (l.length - mt)) := by
        rw [h2]
    _ = (l ++ r).drop ((l ++ r).length - mt) := by
        rw [List.drop_drop]
        congr 1
        simp only [List.length_append]
        omega

theorem fold_applyOp (ops : List MemOp) : ∀ (m : ConversationMemory),
    m.turns.length ≤ m.max_turns →
    ((ops.foldl ConversationMemory.applyOp m).turns
        = (m.turns ++ ops.map MemOp.turn).drop
            ((m.turns ++ ops.map MemOp.turn).length - m.max_turns))
      ∧ (ops.foldl ConversationMemory.applyOp m).max_turns = m.max_turns := by
  induction ops with
  | nil =>
    intro m hm
    refine ⟨?_, rfl⟩
    simp only [List.foldl_nil, List.map_nil, List.append_nil]
    rw [Nat.sub_eq_zero_of_le hm, List.drop_zero]
  | cons op ops ih =>
    intro m hm
    have hstep : (m.applyOp op).turns
        = (m.turns ++ [op.turn]).drop ((m.turns ++ [op.turn]).length - m.max_turns) := by
      cases op <;> rfl
    have hmax : (m.applyOp op).max_turns = m.max_turns := by
      cases op <;> rfl
    have hlen : (m.applyOp op).turns.length ≤ (m.applyOp op).max_turns := by
      rw [hstep, hmax, List.length_drop]
      omega
    obtain ⟨ht, hmx⟩ := ih (m.applyOp op) hlen
    rw [List.foldl_cons]
    refine ⟨?_, by rw [hmx, hmax]⟩
    rw [ht, hstep, hmax, trim_absorb, List.map_cons, List.append_assoc, List.singleton_append]

/-- C6 (spec-modelled): after any prefix of a sequence of user/assistant
appends to a memory constructed with positive `max_turns`, the turn count is
at most `max_turns`, and the retained turns are exactly the most recent
`max_turns` appended turns in their original insertion order (FIFO
eviction). -/
theorem c6_memory_bounded_fifo (mt : Nat) (h : 0 < mt) (ops : List MemOp) (n : Nat) :
    ((ops.take n).foldl ConversationMemory.applyOp (emptyMemory mt)).turns.length ≤ mt ∧
      ((ops.take n).foldl ConversationMemory.applyOp (emptyMemory mt)).turns
        = ((ops.take n).map MemOp.turn).drop (((ops.take n).map MemOp.turn).length - mt) := by
  have h0 : (emptyMemory mt).turns.length ≤ (emptyMemory mt).max_turns := Nat.zero_le _
  obtain ⟨ht, _⟩ := fold_applyOp (ops.take n) (emptyMemory mt) h0
  have ht' : ((ops.take n).foldl ConversationMemory.applyOp (emptyMemory mt)).turns
      = ((ops.take n).map MemOp.turn).drop (((ops.take n).map MemOp.turn).length - mt) := by
    simpa [emptyMemory] using ht
  refine ⟨?_, ht'⟩
  rw [ht', List.length_drop]
  omega

/-- C6 witness: four appends against a bound of two retain the last two
turns. -/
theorem c6_memory_bounded_fifo_witness :
    0 < 2 ∧
      (((memOpsExample.take 4).foldl ConversationMemory.applyOp (emptyMemory 2)).turns.length ≤ 2 ∧
        ((memOpsExample.take 4).foldl ConversationMemory.applyOp (emptyMemory 2)).turns
          = ((memOpsExample.take 4).map MemOp.turn).drop
              (((memOpsExample.take 4).map MemOp.turn).length - 2)) :=
  ⟨Nat.zero_lt_two, c6_memory_bounded_fifo 2 Nat.zero_lt_two memOpsExample 4⟩

/-! ## Claim C2: task extraction -/

theorem extractGo_eq_find (ls : List Str) :
    extractGo ls = (ls.find? (fun l => decide (pyStrip l ≠ [] ∧ 10 < (pyStrip l).length))).map
      (fun l => (stripTaskPrefixes (pyStrip l)).take 100) := by
  induction ls with
  | nil => rfl
  | cons l rest ih =>
    by_cases h : pyStrip l ≠ [] ∧ 10 < (pyStrip l).length
    · rw [List.find?_cons_of_pos _ (by simpa using h)]
      simp only [extractGo, if_pos h, Option.map_some']
    · rw [List.find?_cons_of_neg _ (by simpa using h)]
      simp only [extractGo, if_neg h]
      exact ih

/-- C2 (amended): for every input, `_extract_task_from_answer` equals the
claimed extraction procedure applied to whitespace-stripped lines — split the
answer into lines, whitespace-strip each, return the first stripped line
longer than 10 characters with the five listed prefixes stripped in order and
the result truncated to 100 characters, `none` when no line qualifies — and
the two example inputs of the claim behave as stated. -/
theorem c2_task_extraction :
    (∀ s : Str, extract_task_from_answer s = extractSpec pyStrip s) ∧
      extract_task_from_answer ("1. pick up the cup\nSome trailing note".data)
        = some ("pick up the cup".data) ∧
      extract_task_from_answer ([] : Str) = none := by
  refine ⟨fun s => extractGo_eq_find (splitLines s), by decide, rfl⟩

/-- C2 counterexample: on eleven spaces followed by one letter — a raw line
that is non-empty and longer than 10 characters — the code extracts nothing,
while the claim's reading of the heuristic (which never strips surrounding
whitespace) would extract the line itself. -/
theorem c2_counterexample :
    extract_task_from_answer ("           a".data) = none ∧
      extractSpec (fun l => l) ("           a".data) = some ("           a".data) := by
  exact ⟨by decide, by decide⟩

/-! ## Claim C10: default substitution values -/

theorem enumTasks_eq_zip (ts : List Str) : ∀ i : Nat,
    enumTasks i ts = ((List.range ts.length).zip ts).map
      (fun p => natToStr (p.1 + i + 1) ++ "-".data ++ p.2) := by
  induction ts with
  | nil => intro i; rfl
  | cons t r ih =>
    intro i
    simp only [enumTasks, List.length_cons, List.range_succ_eq_map, List.zip_cons_cons,
      List.map_cons, List.zip_map_left, List.map_map]
    refine congrArg₂ _ (by rw [Nat.zero_add]) ?_
    rw [ih (i + 1)]
    apply List.map_congr_left
    intro p _
    simp only [Function.comp_apply, Prod.map_fst, Prod.map_snd, id_eq]
    rw [show p.1.succ + i + 1 = p.1 + (i + 1) + 1 by omega]

/-- C10: with no explicitly supplied variables and an empty session, the
resolved substitution values are exactly the fixed defaults
`complete the task`, `none`, `starting the task`, `the current task`, `5`;
and with completed tasks present, `get_completed_steps_str` renders the
comma-separated 1-indexed enumeration `1-task, 2-task, ...`. -/
theorem c10_default_values :
    resolveRepl {} initSession
        = { goal := "complete the task".data, completed_steps := "none".data,
            last_task := "starting the task".data, task := "the current task".data,
            num_steps := "5".data } ∧
      (∀ s : PlanningSession, s.completed_tasks ≠ [] →
        s.get_completed_steps_str = specEnumSteps s.completed_tasks) := by
  refine ⟨rfl, ?_⟩
  intro s hne
  simp only [PlanningSession.get_completed_steps_str, if_neg hne, specEnumSteps]
  rw [enumTasks_eq_zip s.completed_tasks 0]

/-- C10 witness: the enumeration rendering applied at a concrete two-task
session. -/
theorem c10_default_values_witness :
    ({ initSession with completed_tasks := ["pick".data, "place".data] } : PlanningSession).completed_tasks ≠ [] ∧
      ({ initSession with completed_tasks := ["pick".data, "place".data] } : PlanningSession).get_completed_steps_str
        = specEnumSteps (["pick".data, "place".data]) :=
  ⟨by decide, c10_default_values.2 _ (by decide)⟩

/-! ## Claim C9: deterministic template selection under a fixed random draw -/

/-- C9: template selection is driven by the injected random draw —
`random.choice` is modelled as an injected index, fixed when a test fixes the
pseudo-random source — and the rendered prompt for a known query type is fully
determined by that draw (modulo the template count), the variables, and the
session state: two invocations whose draws select the same index coincide. -/
theorem c9_template_selection_deterministic (qt : Str) (ts : List Str)
    (hlk : lookupTemplates qt = some ts) (kw : Kwargs) (sess : PlanningSession)
    (i j : Nat) (hij : i % ts.length = j % ts.length) :
    generate_prompt qt kw sess i = generate_prompt qt kw sess j := by
  simp only [generate_prompt, hlk]
  rw [hij]

/-- C9 witness: draws 1 and 6 select the same `planning` template and yield
the same prompt. -/
theorem c9_template_selection_deterministic_witness :
    lookupTemplates ("planning".data) = some planningTemplates ∧
      1 % planningTemplates.length = 6 % planningTemplates.length ∧
      generate_prompt ("planning".data) {} initSession 1
        = generate_prompt ("planning".data) {} initSession 6 :=
  ⟨rfl, by decide,
    c9_template_selection_deterministic ("planning".data) planningTemplates rfl {} initSession 1 6 (by decide)⟩

/-! ## Claim C3: placeholder substitution -/

/-- C3 (amended): for every known query type and every template choice, when
each resolved variable value is brace-free the rendered prompt contains none
of the five placeholders (every placeholder occurring in the chosen template
is substituted); the proviso is forced because a value that itself contains a
placeholder survives the sequential replacement, as `c3_counterexample`
shows.  For an unknown query type, the caller-supplied literal prompt (or the
generic default) is returned unchanged, without raising. -/
theorem c3_placeholder_substitution :
    (∀ (qt : Str) (ts : List Str), lookupTemplates qt = some ts →
      ∀ (kw : Kwargs) (sess : PlanningSession) (draw : Nat),
        braceFree (resolveRepl kw sess).goal = true →
        braceFree (resolveRepl kw sess).completed_steps = true →
        braceFree (resolveRepl kw sess).last_task = true →
        braceFree (resolveRepl kw sess).task = true →
        braceFree (resolveRepl kw sess).num_steps = true →
        ∀ n : VarName, strContains (phStr n) (generate_prompt qt kw sess draw) = false) ∧
      (∀ qt : Str, lookupTemplates qt = none →
        ∀ (kw : Kwargs) (sess : PlanningSession) (draw : Nat),
          generate_prompt qt kw sess draw = kw.custom_prompt.getD ("Describe what you see.".data)) := by
  constructor
  · intro qt ts hlk kw sess draw h1 h2 h3 h4 h5 n
    simp only [generate_prompt, hlk]
    unfold lookupTemplates at hlk
    split_ifs at hlk
    all_goals simp only [Option.some.injEq] at hlk
    all_goals subst hlk
    all_goals exact gen_no_ph (by decide) (by decide) h1 h2 h3 h4 h5 draw n
  · intro qt hlk kw sess draw
    simp only [generate_prompt, hlk]

/-- C3 counterexample: supplying the goal value `{goal}` makes the rendered
`planning` prompt contain the placeholder `{goal}`, so the claim's
unconditional "contains none of these placeholders" is false. -/
theorem c3_counterexample :
    strContains (phStr .goal)
      (generate_prompt ("planning".data) { goal := some ("{goal}".data) } initSession 0) = true := by
  decide

/-- C3 witness: with default (brace-free) values, the rendered `planning`
prompt for draw 0 contains no `{goal}` placeholder. -/
theorem c3_placeholder_substitution_witness :
    lookupTemplates ("planning".data) = some planningTemplates ∧
      strContains (phStr .goal) (generate_prompt ("planning".data) {} initSession 0) = false :=
  ⟨rfl, c3_placeholder_substitution.1 ("planning".data) planningTemplates rfl {} initSession 0
    (by decide) (by decide) (by decide) (by decide) (by decide) .goal⟩

/-! ## Helper lemmas for the pipeline claims: extraction yields non-empty
tasks, and `affordance_positive` rendering ignores the session when the task
is supplied -/

theorem getLast?_reverse' (l : List Char) : l.reverse.getLast? = l.head? := by
  cases l with
  | nil => rfl
  | cons c cs =>
    rw [List.reverse_cons, List.getLast?_append_cons, List.head?_cons, List.getLast?_singleton]

theorem head?_dropWhile_not (p : Char → Bool) :
    ∀ (l : List Char) (c : Char), (l.dropWhile p).head? = some c → p c = false := by
  intro l
  induction l with
  | nil => intro c hc; exact Option.noConfusion hc
  | cons x xs ih =>
    intro c hc
    rw [List.dropWhile_cons] at hc
    by_cases hx : p x = true
    · rw [if_pos hx] at hc
      exact ih c hc
    · rw [if_neg hx] at hc
      rw [List.head?_cons, Option.some.injEq] at hc
      rw [← hc]
      exact Bool.not_eq_true _ |>.mp hx

theorem pyStrip_getLast (s : Str) (c : Char) (h : (pyStrip s).getLast? = some c) :
    pyWsChar c = false := by
  unfold pyStrip at h
  rw [getLast?_reverse'] at h
  exact head?_dropWhile_not pyWsChar _ c h

theorem getLast?_drop_of_ne_nil {l : List Char} {k : Nat} (h : l.drop k ≠ []) :
    (l.drop k).getLast? = l.getLast? := by
  conv_rhs => rw [← List.take_append_drop k l]
  rw [List.getLast?_append_of_ne_nil _ h]

theorem stripStep {acc p : Str} (hne : acc ≠ [])
    (hlast : ∀ c, acc.getLast? = some c → pyWsChar c = false)
    (hplast : p.getLast? = some ' ') :
    (if isPrefixB p acc then acc.drop p.length else acc) ≠ [] ∧
      (∀ c, (if isPrefixB p acc then acc.drop p.length else acc).getLast? = some c →
        pyWsChar c = false) := by
  by_cases hp : isPrefixB p acc = true
  · rw [if_pos hp]
    have hpre := isPrefixB_iff_prefix.mp hp
    have hdne : acc.drop p.length ≠ [] := by
      intro hnil
      have hlen : acc.length ≤ p.length := by
        have := congrArg List.length hnil
        simp only [List.length_drop, List.length_nil] at this
        omega
      have heq : p = acc := hpre.eq_of_length (Nat.le_antisymm hpre.length_le hlen)
      have := hlast ' ' (by rw [← heq]; exact hplast)
      simp [pyWsChar] at this
    refine ⟨hdne, ?_⟩
    intro c hc
    rw [getLast?_drop_of_ne_nil hdne] at hc
    exact hlast c hc
  · rw [if_neg hp]
    exact ⟨hne, hlast⟩

theorem stripTaskPrefixes_ne_nil {l : Str} (hne : l ≠ [])
    (hlast : ∀ c, l.getLast? = some c → pyWsChar c = false) : stripTaskPrefixes l ≠ [] := by
  have h1 := stripStep (p := "The next step is to ".data) hne hlast (by decide)
  have h2 := stripStep (p := "You should ".data) h1.1 h1.2 (by decide)
  have h3 := stripStep (p := "First, ".data) h2.1 h2.2 (by decide)
  have h4 := stripStep (p := "1. ".data) h3.1 h3.2 (by decide)
  have h5 := stripStep (p := "- ".data) h4.1 h4.2 (by decide)
  exact h5.1

theorem extractGo_some_ne_nil : ∀ {ls : List Str} {t : Str}, extractGo ls = some t → t ≠ [] := by
  intro ls
  induction ls with
  | nil => intro t h; exact Option.noConfusion h
  | cons l rest ih =>
    intro t h
    simp only [extractGo] at h
    by_cases hc : pyStrip l ≠ [] ∧ 10 < (pyStrip l).length
    · rw [if_pos hc, Option.some.injEq] at h
      have hs : stripTaskPrefixes (pyStrip l) ≠ [] :=
        stripTaskPrefixes_ne_nil hc.1 (pyStrip_getLast l)
      intro hnil
      rw [← h] at hnil
      rcases List.take_eq_nil_iff.mp hnil with h100 | hx
      · exact Nat.noConfusion h100
      · exact hs hx
    · rw [if_neg hc] at h
      exact ih h

theorem extract_some_ne_nil {a t : Str} (h : extract_task_from_answer a = some t) : t ≠ [] :=
  extractGo_some_ne_nil h

theorem pyOrOpt_extract (a d : Str) :
    pyOrOpt (extract_task_from_answer a) d = (extract_task_from_answer a).getD d := by
  cases h : extract_task_from_answer a with
  | none => rfl
  | some t =>
    simp only [pyOrOpt, Option.getD_some, if_neg (extract_some_ne_nil h)]

theorem gp_affordance_session_irrelevant (v : Str) (draw : Nat) (s s' : PlanningSession) :
    generate_prompt ("affordance_positive".data) { task := some v } s draw
      = generate_prompt ("affordance_positive".data) { task := some v } s' draw := by
  have hlk : lookupTemplates ("affordance_positive".data) = some affordancePositiveTemplates := rfl
  simp only [generate_prompt, hlk]
  have hmem := getD_mem_of_lt
    (Nat.mod_lt draw (show 0 < affordancePositiveTemplates.length by decide)) ([] : Str)
  have hall : ∀ u ∈ affordancePositiveTemplates,
      strContains (phStr .goal) u = false ∧ strContains (phStr .completed_steps) u = false ∧
        strContains (phStr .last_task) u = false := by decide
  obtain ⟨hg, hcs, hlt⟩ := hall _ hmem
  unfold applyAllRepls
  rw [strReplace_no_occur hg, strReplace_no_occur hcs, strReplace_no_occur hlt,
    strReplace_no_occur hg, strReplace_no_occur hcs, strReplace_no_occur hlt]
  rfl

/-! ## Claim C1: pipeline stage structure -/

/-- C1: for every goal (and any inference behaviour, random draws, session
and timestamp), the pipeline's result record holds exactly 4 step records
whose query types are, in order, `generative_affordance`, `planning`,
`affordance_positive`, `planning_remaining`; and stage 3's prompt is the
`affordance_positive` rendering with the `{task}` variable set to the task
extracted from stage 2's answer, or the generic `the first step` when
extraction fails. -/
theorem c1_pipeline_structure (sess : PlanningSession) (runDir : Option Str) (goal : Str)
    (askFn : Nat → Str → AskResult) (draws : Nat → Nat) (nowTs : Str) :
    ((run_planning_pipeline sess runDir goal askFn draws nowTs).results.steps.map
        (fun st => st.query_type))
      = ["generative_affordance".data, "planning".data, "affordance_positive".data,
         "planning_remaining".data] ∧
      (run_planning_pipeline sess runDir goal askFn draws nowTs).results.steps.length = 4 ∧
      (run_planning_pipeline sess runDir goal askFn draws nowTs).results.goal = goal ∧
      ((run_planning_pipeline sess runDir goal askFn draws nowTs).results.steps.getD 2 dfltStep).prompt
        = generate_prompt ("affordance_positive".data)
            { task := some ((extract_task_from_answer
                (((run_planning_pipeline sess runDir goal askFn draws
                    nowTs).results.steps.getD 1 dfltStep).answer)).getD ("the first step".data)) }
            initSession (draws 2) := by
  refine ⟨rfl, rfl, rfl, ?_⟩
  rw [show ((run_planning_pipeline sess runDir goal askFn draws
      nowTs).results.steps.getD 2 dfltStep).prompt
    = generate_prompt ("affordance_positive".data)
        { task := some (pyOrOpt (extract_task_from_answer
            (((run_planning_pipeline sess runDir goal askFn draws
                nowTs).results.steps.getD 1 dfltStep).answer)) ("the first step".data)) }
        (run_planning_pipeline sess runDir goal askFn draws nowTs).sess (draws 2) from rfl]
  rw [pyOrOpt_extract]
  exact gp_affordance_session_irrelevant _ _ _ _

/-! ## Claim C4 (amended): stage failure handling -/

theorem err_record_empty {res : AskResult} {msg : Str} (h : res = .err msg) :
    askAnswer res = [] ∧ askThinking res = [] := by
  subst h
  exact ⟨rfl, rfl⟩

/-- C4 (amended): when a stage's inference call fails, the pipeline continues
— all 4 step records are produced and the run is persisted (two files, when a
run directory is set) — but the failed stage's record carries empty `answer`
and `thinking` and the constant `success = true`; the error message is not
recorded in the step record.  (`c4_counterexample` shows the claimed
non-success status is absent.) -/
theorem c4_stage_failure (sess : PlanningSession) (d goal : Str)
    (askFn : Nat → Str → AskResult) (draws : Nat → Nat) (nowTs : Str) :
    (∀ st ∈ (run_planning_pipeline sess (some d) goal askFn draws nowTs).results.steps,
        st.success = true) ∧
      (run_planning_pipeline sess (some d) goal askFn draws nowTs).results.steps.length = 4 ∧
      (run_planning_pipeline sess (some d) goal askFn draws nowTs).writes.length = 2 ∧
      (∀ i msg, i < 4 →
        askFn i (((run_planning_pipeline sess (some d) goal askFn draws
            nowTs).results.steps.getD i dfltStep).prompt) = .err msg →
        ((run_planning_pipeline sess (some d) goal askFn draws
            nowTs).results.steps.getD i dfltStep).answer = [] ∧
          ((run_planning_pipeline sess (some d) goal askFn draws
            nowTs).results.steps.getD i dfltStep).thinking = []) := by
  refine ⟨?_, rfl, rfl, ?_⟩
  · intro st hst
    simp only [run_planning_pipeline, List.mem_cons, List.not_mem_nil, or_false] at hst
    rcases hst with h | h | h | h <;> rw [h] <;> rfl
  · intro i msg hi herr
    interval_cases i <;> exact err_record_empty herr

/-- C4 witness: with an always-failing inference capability, stage 0's record
has empty answer and thinking while the pipeline still ran to completion. -/
theorem c4_stage_failure_witness :
    ((run_planning_pipeline initSession (some ("run".data)) ("stack the blocks".data)
        (fun _ _ => .err ("inference failed".data)) (fun _ => 0) ("t".data)).results.steps.getD
          0 dfltStep).answer = [] ∧
      ((run_planning_pipeline initSession (some ("run".data)) ("stack the blocks".data)
        (fun _ _ => .err ("inference failed".data)) (fun _ => 0) ("t".data)).results.steps.getD
          0 dfltStep).thinking = [] :=
  c4_stage_failure initSession ("run".data) ("stack the blocks".data)
    (fun _ _ => .err ("inference failed".data)) (fun _ => 0) ("t".data) |>.2.2.2
    0 ("inference failed".data) (by decide) rfl

/-- C4 counterexample: a stage whose inference call fails is still recorded
with `success = true` (and its error message appears nowhere in the step
record, whose only fields are query type, prompt, answer, thinking and
success), contradicting the claimed non-success status. -/
theorem c4_counterexample :
    ((run_planning_pipeline initSession (some ("run".data)) ("stack the blocks".data)
        (fun _ _ => .err ("boom".data)) (fun _ => 0) ("t".data)).results.steps.getD
          0 dfltStep).success = true := rfl

/-! ## Claim C5 (amended): persistence of pipeline results -/

/-- C5 (amended): when a run directory was established beforehand (by
`set_image`, which creates one fresh timestamp-named directory per image
set — not per pipeline run), the end of every pipeline run writes exactly two
files into it: the structured result record (goal, timestamp, the 4 ordered
step records) under `pipeline_results.json`, and the parallel plain-text
rendering with per-step separator sections under `pipeline_summary.txt`.
With no established run directory nothing is persisted
(`c5_counterexample`). -/
theorem c5_persistence (sess : PlanningSession) (d goal : Str)
    (askFn : Nat → Str → AskResult) (draws : Nat → Nat) (nowTs : Str) :
    (run_planning_pipeline sess (some d) goal askFn draws nowTs).writes
        = [(d ++ "/pipeline_results.json".data,
            FileCont.jsonFile (run_planning_pipeline sess (some d) goal askFn draws nowTs).results),
           (d ++ "/pipeline_summary.txt".data,
            FileCont.textFile (renderSummary
              (run_planning_pipeline sess (some d) goal askFn draws nowTs).results))] ∧
      (run_planning_pipeline sess (some d) goal askFn draws nowTs).results.steps.length = 4 ∧
      (run_planning_pipeline sess (some d) goal askFn draws nowTs).results.timestamp = nowTs ∧
      (run_planning_pipeline sess (some d) goal askFn draws nowTs).results.goal = goal :=
  ⟨rfl, rfl, rfl, rfl⟩

/-- C5 counterexample: a pipeline run with no previously established run
directory persists nothing, contradicting the claim's "written
unconditionally at the end of every pipeline run". -/
theorem c5_counterexample :
    (run_planning_pipeline initSession none ("stack the blocks".data)
        (fun _ _ => .ok ("all good".data) []) (fun _ => 0) ("t".data)).writes = [] := rfl

end Robobrain
